import Mathlib

/-!
Verification of the SES account monitor's threshold-evaluation and
notification-orchestration engine, shallowly embedded from the Python source
(ses_account_monitor/monitor.py and ses_account_monitor/services/).

Modelling conventions: Python floats are rationals; datetimes are natural
number instants whose ISO rendering is modelled by `toString`; Python dicts of
fixed shape are structures, dicts with dynamic keys are association lists;
fallible code returns `Except PyErr`; outbound HTTP is a function from the
posted body to a status code, and each send also returns the list of posted
bodies as an explicit trace.
-/

/-- Python exceptions raised by the embedded code.  The constructor
`invalidQuotaConfiguration` is modelled from the spec: the spec names an
`InvalidQuotaConfiguration` error for a zero `max_volume`, but no such error
exists anywhere in the source; it is included only so that claims comparing
the actually-raised error against it are statable. -/
inductive PyErr
  | zeroDivisionError
  | indexError
  | unboundLocalError
  | invalidQuotaConfiguration
  deriving DecidableEq, Repr

/-- A Python value appearing in a notification payload field.  The string
formatting applied by the source is kept symbolic: `pct2 v` stands for the
Python two-decimal percentage rendering of v/100, `pct0 v` for the
zero-decimal form, and `pct2pair u t` for the slash-separated pair of
two-decimal percentages used by the Slack reputation message. -/
inductive SVal
  | str (s : String)
  | num (v : ℚ)
  | pct2 (v : ℚ)
  | pct0 (v : ℚ)
  | pct2pair (u t : ℚ)
  deriving DecidableEq, Repr

/-- Threshold name constant from config.py. -/
def THRESHOLD_CRITICAL : String := "CRITICAL"

/-- Threshold name constant from config.py. -/
def THRESHOLD_WARNING : String := "WARNING"

/-- Threshold name constant from config.py. -/
def THRESHOLD_OK : String := "OK"

/-- Action constant; the config.py revision under src/ predates this name
(monitor.py imports it), value per the docstrings (alert, disable, enable). -/
def ACTION_ALERT : String := "alert"

/-- Action constant, see `ACTION_ALERT`. -/
def ACTION_DISABLE : String := "disable"

/-- Action constant, see `ACTION_ALERT`. -/
def ACTION_ENABLE : String := "enable"

/-- Management strategy constant; the config.py revision under src/ predates
this name (monitor.py imports it), value per the monitor docstring
(managed, alert). -/
def SES_MONITOR_STRATEGY_MANAGED : String := "managed"

/-- Management strategy constant, see `SES_MONITOR_STRATEGY_MANAGED`. -/
def SES_MONITOR_STRATEGY_ALERT : String := "alert"

/-- Python str.upper for the ASCII strings used here, written over the
character list so that it evaluates by definitional unfolding. -/
def pyUpper (s : String) : String := ⟨s.data.map Char.toUpper⟩

/-- Decidable equality for Except results, used to settle claims on
concrete inputs. -/
instance exceptDecEq {ε α : Type} [DecidableEq ε] [DecidableEq α] :
    DecidableEq (Except ε α) := fun a b =>
  match a, b with
  | .error x, .error y =>
    decidable_of_iff (x = y) ⟨fun h => h ▸ rfl, fun h => by injection h⟩
  | .ok x, .ok y =>
    decidable_of_iff (x = y) ⟨fun h => h ▸ rfl, fun h => by injection h⟩
  | .error _, .ok _ => isFalse (fun h => by injection h)
  | .ok _, .error _ => isFalse (fun h => by injection h)

/-- A classified reputation metric tuple (label, value, threshold, ts) as
produced by the CloudWatch service and consumed by the payload builders. -/
structure RepMetric where
  label : String
  value : ℚ
  threshold : ℚ
  ts : Nat
  deriving DecidableEq, Repr

/-- Configuration of the Slack service (SlackServiceConfig namedtuple). -/
structure SlackServiceConfig where
  awsAccountName : String
  awsEnvironment : String
  awsRegion : String
  footerIconUrl : String
  iconEmoji : Option String
  serviceName : String
  sesConsoleUrl : String
  sesReputationDashboardUrl : String
  deriving DecidableEq, Repr

/-- One entry of a Slack attachment fields list. -/
structure SlackField where
  title : String
  value : SVal
  short : Option Bool
  deriving DecidableEq, Repr

/-- One Slack message attachment. -/
structure SlackAttachment where
  fallback : String
  color : String
  fields : List SlackField
  footer : String
  footerIcon : String
  ts : Nat
  deriving DecidableEq, Repr

/-- A Slack message payload; `channel` is `none` when the dict has no
channel key (builders never set it, channel injection adds it). -/
structure SlackMessage where
  channel : Option String
  attachments : List SlackAttachment
  iconEmoji : Option String
  username : String
  deriving DecidableEq, Repr

/-- get_color from slack_service.py: THRESHOLD_COLOR dict lookup on the
upper-cased threshold name, defaulting to the empty string. -/
def get_color (thresholdName : String) : String :=
  (([("CRITICAL", "danger"), ("OK", "ok"), ("WARNING", "warning")] :
      List (String × String)).lookup (pyUpper thresholdName)).getD ""

/-- build_ses_reputation_text from slack_service.py.  For a threshold name
other than CRITICAL, WARNING or OK the Python locals stay unbound and the
final return raises UnboundLocalError. -/
def build_ses_reputation_text (thresholdName : String) :
    Except PyErr (String × String) :=
  let tn := pyUpper thresholdName
  if tn = "CRITICAL" ∨ tn = "WARNING" then
    .ok ("SES account reputation has breached " ++ tn ++ " threshold.",
         "SES account reputation has breached the " ++ tn ++ " threshold.")
  else if tn = "OK" then
    .ok ("SES account reputation has recovered.",
         "SES account reputation status is " ++ tn ++ ".")
  else .error .unboundLocalError

/-- SlackService.build_ses_account_sending_quota_payload.  The trailing
`nowIso`/`nowUnix` arguments are the current clock readings the source
substitutes when the optional timestamps are None. -/
def build_ses_account_sending_quota_payload (cfg : SlackServiceConfig)
    (thresholdName : String)
    (utilizationPercent thresholdPercent volume maxVolume : ℚ)
    (metricIsoTs : Option String) (eventUnixTs : Option Nat)
    (nowIso : String) (nowUnix : Nat) : SlackMessage :=
  { channel := none
    attachments := [
      { fallback := "SES account sending rate has breached " ++ thresholdName ++ " threshold."
        color := get_color thresholdName
        fields := [
          { title := "Service"
            value := .str ("<" ++ cfg.sesConsoleUrl ++ "|SES Account Sending>")
            short := some true },
          { title := "Account", value := .str cfg.awsAccountName, short := some true },
          { title := "Region", value := .str cfg.awsRegion, short := some true },
          { title := "Environment", value := .str cfg.awsEnvironment, short := some true },
          { title := "Status", value := .str thresholdName, short := some true },
          { title := "Time", value := .str (metricIsoTs.getD nowIso), short := none },
          { title := "Utilization", value := .pct2 utilizationPercent, short := some true },
          { title := "Threshold", value := .pct2 thresholdPercent, short := some true },
          { title := "Volume", value := .num volume, short := some true },
          { title := "Max Volume", value := .num maxVolume, short := some true },
          { title := "Message"
            value := .str ("SES account sending rate has breached the " ++ thresholdName ++ " threshold.")
            short := some false } ]
        footer := cfg.serviceName
        footerIcon := cfg.footerIconUrl
        ts := eventUnixTs.getD nowUnix } ]
    iconEmoji := cfg.iconEmoji
    username := "SES Account Monitor" }

/-- SlackService.build_ses_account_reputation_payload. -/
def build_ses_account_reputation_payload (cfg : SlackServiceConfig)
    (thresholdName : String) (metrics : List RepMetric)
    (eventUnixTs : Option Nat) (action : Option String) (nowUnix : Nat) :
    Except PyErr SlackMessage := do
  let (fallbackText, primaryText) ← build_ses_reputation_text thresholdName
  let baseFields : List SlackField := [
    { title := "Service"
      value := .str ("<" ++ cfg.sesReputationDashboardUrl ++ "|SES Account Reputation>")
      short := some true },
    { title := "Account", value := .str cfg.awsAccountName, short := some true },
    { title := "Region", value := .str cfg.awsRegion, short := some true },
    { title := "Environment", value := .str cfg.awsEnvironment, short := some true },
    { title := "Status", value := .str thresholdName, short := some true },
    { title := "Action", value := .str (pyUpper (action.getD ACTION_ALERT)), short := some true } ]
  let metricFields := metrics.flatMap (fun m =>
    [ { title := m.label ++ " / Threshold"
        value := SVal.pct2pair m.value m.threshold
        short := some true },
      { title := m.label ++ " Time", value := SVal.str (toString m.ts), short := some true } ])
  .ok
    { channel := none
      attachments := [
        { fallback := fallbackText
          color := get_color thresholdName
          fields := baseFields ++ metricFields ++
            [ { title := "Message", value := .str primaryText, short := some false } ]
          footer := cfg.serviceName
          footerIcon := cfg.footerIconUrl
          ts := eventUnixTs.getD nowUnix } ]
      iconEmoji := cfg.iconEmoji
      username := "SES Account Monitor" }

/-- Mutable state of a SlackService instance: the configured dry-run default,
the channel list and the pending message queue. -/
structure SlackServiceState where
  dryRun : Bool
  channels : List String
  messages : List SlackMessage
  deriving DecidableEq, Repr

/-- Channel injection performed inside _build_message_with_channels: a fresh
dict holding the channel is updated with the base payload, so a channel key
already present on the message wins over the injected one. -/
def injectChannel (channel : String) (base : SlackMessage) : SlackMessage :=
  { base with channel := some (base.channel.getD channel) }

/-- SlackService._build_message_with_channels. -/
def build_message_with_channels (channels : List String) (base : SlackMessage) :
    List SlackMessage :=
  channels.map (fun c => injectChannel c base)

/-- SlackService._enqueue_message. -/
def slack_enqueue_message (s : SlackServiceState) (m : SlackMessage) : SlackServiceState :=
  { s with messages := s.messages ++ [m] }

/-- Return value of SlackService.send_notifications: the dry-run branch
returns only the responses list (the channel-injected would-be requests),
the live branch returns a (send_status, responses) pair whose responses
pair each channel with the HTTP status code. -/
inductive SlackSendResult
  | dry (responses : List SlackMessage)
  | live (sendStatus : Bool) (responses : List (String × Nat))
  deriving DecidableEq, Repr

/-- SlackService.send_notifications.  `net` is the outbound transport
(posted body to status code); the middle component of the result is the
trace of posted bodies.  Note the source builds the channel-injected
`payload` in the live loop but posts `message` (slack_service.py line 165). -/
def slack_send_notifications (net : SlackMessage → Nat)
    (s : SlackServiceState) (dryRunArg : Bool) :
    SlackSendResult × List SlackMessage × SlackServiceState :=
  if dryRunArg || s.dryRun then
    (.dry (s.messages.flatMap (build_message_with_channels s.channels)), [],
     { s with messages := [] })
  else
    (.live (!dryRunArg)
       (s.messages.flatMap (fun m => s.channels.map (fun c => (c, net m)))),
     s.messages.flatMap (fun m => s.channels.map (fun _ => m)),
     { s with messages := [] })

/-- Configuration of the PagerDuty service (PagerDutyServiceConfig
namedtuple; routing_key defaults to None). -/
structure PagerDutyServiceConfig where
  awsAccountName : String
  awsEnvironment : String
  awsRegion : String
  serviceName : String
  sesConsoleUrl : String
  routingKey : Option String
  deriving DecidableEq, Repr

/-- The payload object of a PagerDuty trigger event. -/
structure PDPayloadBody where
  summary : String
  timestamp : String
  source : String
  severity : String
  component : String
  group : String
  classType : String
  customDetails : List (String × SVal)
  deriving DecidableEq, Repr

/-- A PagerDuty event dict; resolve events carry no payload, client or
client_url keys, modelled by `none`. -/
structure PDEvent where
  payload : Option PDPayloadBody
  routingKey : Option String
  dedupKey : String
  eventAction : String
  client : Option String
  clientUrl : Option String
  deriving DecidableEq, Repr

/-- Python dict assignment d[k] = v on an association list: override an
existing key in place, else append. -/
def dictAssign (d : List (String × SVal)) (k : String) (v : SVal) :
    List (String × SVal) :=
  if d.any (fun kv => kv.1 == k) then
    d.map (fun kv => if kv.1 == k then (k, v) else kv)
  else d ++ [(k, v)]

/-- PagerDutyService._get_dedupe_string. -/
def get_dedupe_string (cfg : PagerDutyServiceConfig) (target : String) : String :=
  cfg.serviceName ++ "/" ++ target

/-- PagerDutyService._get_group. -/
def get_group (cfg : PagerDutyServiceConfig) : String :=
  "aws-" ++ cfg.awsAccountName

/-- Event class constant from pager_duty_service.py. -/
def SES_ACCOUNT_SENDING_QUOTA_CLASS_TYPE : String := "ses_account_sending_quota"

/-- Event class constant from pager_duty_service.py. -/
def SES_ACCOUNT_REPUTATION_CLASS_TYPE : String := "ses_account_reputation"

/-- PagerDutyService._build_ses_account_quota_custom_details; the `ts`
argument is the metric timestamp string the monitor passes through, `nowUnix`
the clock reading substituted when it is None. -/
def build_ses_account_quota_custom_details (cfg : PagerDutyServiceConfig)
    (volume maxVolume utilization threshold : ℚ)
    (ts : Option String) (nowUnix : Nat) : List (String × SVal) :=
  [("aws_account_name", .str cfg.awsAccountName),
   ("aws_region", .str cfg.awsRegion),
   ("aws_environment", .str cfg.awsEnvironment),
   ("volume", .num volume),
   ("max_volume", .num maxVolume),
   ("utilization", .pct0 utilization),
   ("threshold", .pct0 threshold),
   ("ts", .str (ts.getD (toString nowUnix))),
   ("version", .str "v1.2018.06.18")]

/-- PagerDutyService._build_ses_reputation_custom_details: fixed base keys,
an action message for the disable and alert actions, then one
value/threshold/timestamp triple of keys appended per metric, the key stem
being the lower-cased, underscore-joined metric label. -/
def build_ses_reputation_custom_details (cfg : PagerDutyServiceConfig)
    (metrics : List RepMetric) (action : Option String) (ts : Option Nat)
    (nowUnix : Nat) : List (String × SVal) :=
  let action := action.getD ACTION_ALERT
  let details : List (String × SVal) :=
    [("aws_account_name", .str cfg.awsAccountName),
     ("aws_region", .str cfg.awsRegion),
     ("aws_environment", .str cfg.awsEnvironment),
     ("ts", .str (toString (ts.getD nowUnix))),
     ("version", .str "v1.2018.06.18"),
     ("action", .str action)]
  let details :=
    if action = ACTION_DISABLE then
      dictAssign details "action_message" (.str "SES account sending is disabled.")
    else details
  let details :=
    if action = ACTION_ALERT then
      dictAssign details "action_message" (.str "SES account is in danger of being suspended.")
    else details
  metrics.foldl (fun d m =>
    let name := (m.label.replace " " "_").map Char.toLower
    dictAssign (dictAssign (dictAssign d name (.pct2 m.value))
        (name ++ "_threshold") (.pct2 m.threshold))
      (name ++ "_timestamp") (.str (toString m.ts))) details

/-- PagerDutyService._build_trigger_payload. -/
def build_trigger_payload (cfg : PagerDutyServiceConfig)
    (summary severity classType eventAction : String)
    (customDetails : List (String × SVal)) (timestamp : Option String)
    (client clientUrl : Option String) (nowIso : String) : PDEvent :=
  { payload := some
      { summary := summary
        timestamp := timestamp.getD nowIso
        source := cfg.serviceName
        severity := severity
        component := "ses"
        group := get_group cfg
        classType := classType
        customDetails := customDetails }
    routingKey := cfg.routingKey
    dedupKey := get_dedupe_string cfg classType
    eventAction := eventAction
    client := client
    clientUrl := clientUrl }

/-- PagerDutyService._build_resolve_payload. -/
def build_resolve_payload (cfg : PagerDutyServiceConfig) (classType : String) : PDEvent :=
  { payload := none
    routingKey := cfg.routingKey
    dedupKey := get_dedupe_string cfg classType
    eventAction := "resolve"
    client := none
    clientUrl := none }

/-- PagerDutyService.build_ses_account_sending_quota_trigger_event_payload. -/
def build_ses_account_sending_quota_trigger_event_payload
    (cfg : PagerDutyServiceConfig)
    (volume maxVolume utilizationPercent thresholdPercent : ℚ)
    (eventIsoTs : Option String) (metricTs : Option String)
    (nowIso : String) (nowUnix : Nat) : PDEvent :=
  build_trigger_payload cfg "SES account sending quota is at capacity." "critical"
    SES_ACCOUNT_SENDING_QUOTA_CLASS_TYPE "trigger"
    (build_ses_account_quota_custom_details cfg volume maxVolume
      utilizationPercent thresholdPercent metricTs nowUnix)
    eventIsoTs (some "AWS Console") (some cfg.sesConsoleUrl) nowIso

/-- PagerDutyService.build_ses_account_reputation_trigger_event_payload. -/
def build_ses_account_reputation_trigger_event_payload
    (cfg : PagerDutyServiceConfig) (metrics : List RepMetric)
    (eventIsoTs : Option String) (eventUnixTs : Option Nat)
    (action : Option String) (nowIso : String) (nowUnix : Nat) : PDEvent :=
  build_trigger_payload cfg "SES account reputation is at dangerous levels." "critical"
    SES_ACCOUNT_REPUTATION_CLASS_TYPE "trigger"
    (build_ses_reputation_custom_details cfg metrics action eventUnixTs nowUnix)
    eventIsoTs (some "AWS Console") (some cfg.sesConsoleUrl) nowIso

/-- PagerDutyService.build_ses_account_sending_quota_resolve_event_payload. -/
def build_ses_account_sending_quota_resolve_event_payload
    (cfg : PagerDutyServiceConfig) : PDEvent :=
  build_resolve_payload cfg SES_ACCOUNT_SENDING_QUOTA_CLASS_TYPE

/-- PagerDutyService.build_ses_account_reputation_resolve_event_payload. -/
def build_ses_account_reputation_resolve_event_payload
    (cfg : PagerDutyServiceConfig) : PDEvent :=
  build_resolve_payload cfg SES_ACCOUNT_REPUTATION_CLASS_TYPE

/-- Mutable state of a PagerDutyService instance: the configured dry-run
default and the pending event queue. -/
structure PagerDutyServiceState where
  dryRun : Bool
  events : List PDEvent
  deriving DecidableEq, Repr

/-- PagerDutyService._enqueue_event. -/
def pd_enqueue_event (s : PagerDutyServiceState) (e : PDEvent) : PagerDutyServiceState :=
  { s with events := s.events ++ [e] }

/-- PagerDutyService.enqueue_ses_account_reputation_trigger_event. -/
def pd_enqueue_ses_account_reputation_trigger_event
    (cfg : PagerDutyServiceConfig) (s : PagerDutyServiceState)
    (metrics : List RepMetric) (eventIsoTs : Option String)
    (eventUnixTs : Option Nat) (action : Option String)
    (nowIso : String) (nowUnix : Nat) : PagerDutyServiceState :=
  pd_enqueue_event s
    (build_ses_account_reputation_trigger_event_payload cfg metrics
      eventIsoTs eventUnixTs action nowIso nowUnix)

/-- One entry of PagerDutyService.responses: in dry-run the queued event is
echoed back, live the HTTP status is recorded. -/
inductive PDResponse
  | echo (e : PDEvent)
  | http (status : Nat)
  deriving DecidableEq, Repr

/-- The event identifier string built inside send_notifications from the
dedup key and event action, with a debug marker in the dry-run branch. -/
def pd_event_id (debug : Bool) (e : PDEvent) : String :=
  if debug then "debug::" ++ e.eventAction ++ "::" ++ e.dedupKey
  else e.eventAction ++ "::" ++ e.dedupKey

/-- PagerDutyService.send_notifications.  `net` is the outbound transport;
the middle component of the result is the trace of posted events.  The
send status is the negation of the explicit dry_run argument alone. -/
def pd_send_notifications (net : PDEvent → Nat)
    (s : PagerDutyServiceState) (dryRunArg : Bool) :
    (Bool × List (String × PDResponse)) × List PDEvent × PagerDutyServiceState :=
  let sendStatus := !dryRunArg
  if dryRunArg || s.dryRun then
    ((sendStatus, s.events.map (fun e => (pd_event_id true e, PDResponse.echo e))),
     [], { s with events := [] })
  else
    ((sendStatus, s.events.map (fun e => (pd_event_id false e, PDResponse.http (net e)))),
     s.events, { s with events := [] })

/-- One MetricDataResults entry from the CloudWatch GetMetricData response
(cloudwatch_service.py); timestamps are modelled as Nat instants. -/
structure MetricDatum where
  id : String
  label : String
  timestamps : List Nat
  values : List ℚ
  deriving DecidableEq, Repr

/-- Per-metric reputation thresholds, SES_THRESHOLDS indexed first by
threshold name and then by metric id; modelled as total maps. -/
structure SesThresholds where
  critical : String → ℚ
  warning : String → ℚ

/-- Python max over a list of Nat instants (0 for the empty list, which the
caller guards against). -/
def pyListMax (l : List Nat) : Nat := l.foldl max 0

/-- get_last_metric from cloudwatch_service.py: None for an empty time
series, else the label, the value at the first index of the maximal
timestamp, and that timestamp; a Values list shorter than that index
raises IndexError in Python. -/
def get_last_metric (m : MetricDatum) : Except PyErr (Option (String × ℚ × Nat)) :=
  if m.timestamps = [] then .ok none
  else
    let lastTs := pyListMax m.timestamps
    let lastIndex := m.timestamps.indexOf lastTs
    match m.values[lastIndex]? with
    | some v => .ok (some (m.label, v, lastTs))
    | none => .error .indexError

/-- The SesReputationMetrics namedtuple of classified metric buckets. -/
structure SesReputationMetrics where
  critical : List RepMetric
  ok : List RepMetric
  warning : List RepMetric
  deriving DecidableEq, Repr

/-- The body of the loop inside
CloudWatchService.build_ses_account_reputation_metrics: classify one
MetricDataResults entry into a bucket from its most recent sample, or into
none when the series is empty. -/
def build_reputation_step (th : SesThresholds) (acc : SesReputationMetrics)
    (m : MetricDatum) : Except PyErr SesReputationMetrics := do
  let lastMetric ← get_last_metric m
  let criticalThreshold := th.critical m.id
  let warningThreshold := th.warning m.id
  match lastMetric with
  | none => pure acc
  | some (label, currentValue, metricTs) =>
    if currentValue ≥ criticalThreshold then
      pure { acc with critical :=
        acc.critical ++ [⟨label, currentValue, criticalThreshold, metricTs⟩] }
    else if currentValue ≥ warningThreshold then
      pure { acc with warning :=
        acc.warning ++ [⟨label, currentValue, warningThreshold, metricTs⟩] }
    else
      pure { acc with ok :=
        acc.ok ++ [⟨label, currentValue, warningThreshold, metricTs⟩] }

/-- CloudWatchService.build_ses_account_reputation_metrics. -/
def build_ses_account_reputation_metrics (th : SesThresholds)
    (metricData : List MetricDatum) : Except PyErr SesReputationMetrics :=
  metricData.foldlM (build_reputation_step th) ⟨[], [], []⟩

/-- SesService._get_utilization_percentage: Python float division raises
ZeroDivisionError on a zero divisor (it does not produce infinity). -/
def get_utilization_percentage (current total : ℚ) : Except PyErr ℚ :=
  if total = 0 then .error .zeroDivisionError
  else .ok (current / total * 100)

/-- The NotifyConfig flags consumed by the monitor. -/
structure MonitorNotifyConfig where
  notifyPagerDutyOnSesReputation : Bool
  notifyPagerDutyOnSesSendingQuota : Bool
  notifySlackOnSesReputation : Bool
  notifySlackOnSesSendingQuota : Bool
  deriving DecidableEq, Repr

/-- Configuration held by a Monitor instance: the notify flags, management
strategy, monitoring toggles, the quota thresholds dict, the CloudWatch
reputation thresholds, and the two transport configurations. -/
structure MonitorConfig where
  notify : MonitorNotifyConfig
  sesManagementStrategy : String
  monitorSesReputation : Bool
  monitorSesSendingQuota : Bool
  sesSendingQuotaWarningPercent : ℚ
  sesSendingQuotaCriticalPercent : ℚ
  sesThresholds : SesThresholds
  pdConfig : PagerDutyServiceConfig
  slackConfig : SlackServiceConfig

/-- The remote world a monitor cycle reads: the SES send-quota counters,
the CloudWatch metric data, and the account-control sending flag. -/
structure MonitorEnv where
  sentLast24Hours : ℚ
  max24HourSend : ℚ
  metricData : List MetricDatum
  sendingEnabled : Bool

/-- The two pending notification queues owned by the monitor's services. -/
structure MonitorQueues where
  pdEvents : List PDEvent
  slackMessages : List SlackMessage
  deriving DecidableEq, Repr

/-- A remote call issued during a monitor cycle, in order: the SES
get_send_quota fetch, the CloudWatch get_metric_data fetch, the
account-control read, and the account-control write. -/
inductive RemoteCall
  | getSendQuota
  | getMetricData
  | isSendingEnabled
  | setSendingEnabled (enabled : Bool)
  deriving DecidableEq, Repr

/-- Return value of the two monitor handlers: the literal empty dict from
the guard paths, or the pending-notifications dict of both queues. -/
inductive HandleResult
  | empty
  | pending (slack : List SlackMessage) (pagerDuty : List PDEvent)
  deriving DecidableEq, Repr

/-- Monitor.handle_ses_sending_quota, embedded over an explicit environment
and queue state; `eventIsoTs`/`eventUnixTs` are the two timestamp renderings
of the target datetime computed at the top of the handler.  The result
carries the handler's return value, the final queues, and the trace of
remote calls. -/
def handle_ses_sending_quota (cfg : MonitorConfig) (env : MonitorEnv)
    (q : MonitorQueues) (eventIsoTs : String) (eventUnixTs : Nat) :
    Except PyErr (HandleResult × MonitorQueues × List RemoteCall) :=
  if ¬cfg.monitorSesSendingQuota then .ok (.empty, q, [])
  else if cfg.sesManagementStrategy ≠ SES_MONITOR_STRATEGY_MANAGED ∧
          cfg.sesManagementStrategy ≠ SES_MONITOR_STRATEGY_ALERT then
    .ok (.empty, q, [])
  else do
    let volume := env.sentLast24Hours
    let maxVolume := env.max24HourSend
    let utilizationPercent ← get_utilization_percentage volume maxVolume
    let metricIsoTs := eventIsoTs
    let criticalPercent := cfg.sesSendingQuotaCriticalPercent
    let warningPercent := cfg.sesSendingQuotaWarningPercent
    let q1 :=
      if utilizationPercent ≥ criticalPercent then
        let qa :=
          if cfg.notify.notifyPagerDutyOnSesSendingQuota then
            { q with pdEvents := q.pdEvents ++
              [build_ses_account_sending_quota_trigger_event_payload cfg.pdConfig
                volume maxVolume utilizationPercent criticalPercent
                (some eventIsoTs) (some metricIsoTs) eventIsoTs eventUnixTs] }
          else q
        if cfg.notify.notifySlackOnSesSendingQuota then
          { qa with slackMessages := qa.slackMessages ++
            [build_ses_account_sending_quota_payload cfg.slackConfig
              THRESHOLD_CRITICAL utilizationPercent criticalPercent volume
              maxVolume (some metricIsoTs) (some eventUnixTs) eventIsoTs eventUnixTs] }
        else qa
      else if utilizationPercent ≥ warningPercent then
        let qa :=
          if cfg.notify.notifyPagerDutyOnSesSendingQuota then
            { q with pdEvents := q.pdEvents ++
              [build_ses_account_sending_quota_resolve_event_payload cfg.pdConfig] }
          else q
        if cfg.notify.notifySlackOnSesSendingQuota then
          { qa with slackMessages := qa.slackMessages ++
            [build_ses_account_sending_quota_payload cfg.slackConfig
              THRESHOLD_WARNING utilizationPercent warningPercent volume
              maxVolume (some metricIsoTs) (some eventUnixTs) eventIsoTs eventUnixTs] }
        else qa
      else
        if cfg.notify.notifyPagerDutyOnSesSendingQuota then
          { q with pdEvents := q.pdEvents ++
            [build_ses_account_sending_quota_resolve_event_payload cfg.pdConfig] }
        else q
    .ok (.pending q1.slackMessages q1.pdEvents, q1, [.getSendQuota])

/-- Monitor.handle_ses_reputation, embedded like
`handle_ses_sending_quota`.  The critical branch disables sending
unconditionally under the managed strategy; the warning and ok branches
read the account-control flag first and enable only when it is off. -/
def handle_ses_reputation (cfg : MonitorConfig) (env : MonitorEnv)
    (q : MonitorQueues) (eventIsoTs : String) (eventUnixTs : Nat) :
    Except PyErr (HandleResult × MonitorQueues × List RemoteCall) :=
  if ¬cfg.monitorSesReputation then .ok (.empty, q, [])
  else if cfg.sesManagementStrategy ≠ SES_MONITOR_STRATEGY_MANAGED ∧
          cfg.sesManagementStrategy ≠ SES_MONITOR_STRATEGY_ALERT then
    .ok (.empty, q, [])
  else do
    let metrics ← build_ses_account_reputation_metrics cfg.sesThresholds env.metricData
    if metrics.critical ≠ [] then
      let dangerMetrics := metrics.critical ++ metrics.warning
      let action :=
        if cfg.sesManagementStrategy = SES_MONITOR_STRATEGY_MANAGED then ACTION_DISABLE
        else ACTION_ALERT
      let controlCalls :=
        if cfg.sesManagementStrategy = SES_MONITOR_STRATEGY_MANAGED then
          [RemoteCall.setSendingEnabled false]
        else []
      let q1 :=
        if cfg.notify.notifyPagerDutyOnSesReputation then
          { q with pdEvents := q.pdEvents ++
            [build_ses_account_reputation_trigger_event_payload cfg.pdConfig
              dangerMetrics (some eventIsoTs) (some eventUnixTs) (some action)
              eventIsoTs eventUnixTs] }
        else q
      let q2 ←
        if cfg.notify.notifySlackOnSesReputation then do
          let msg ← build_ses_account_reputation_payload cfg.slackConfig
            THRESHOLD_CRITICAL dangerMetrics (some eventUnixTs) (some action) eventUnixTs
          pure { q1 with slackMessages := q1.slackMessages ++ [msg] }
        else pure q1
      .ok (.pending q2.slackMessages q2.pdEvents, q2, .getMetricData :: controlCalls)
    else if metrics.warning ≠ [] then
      let actionAndCalls :=
        if cfg.sesManagementStrategy = SES_MONITOR_STRATEGY_MANAGED then
          if env.sendingEnabled then (ACTION_ALERT, [RemoteCall.isSendingEnabled])
          else (ACTION_ENABLE, [RemoteCall.isSendingEnabled, RemoteCall.setSendingEnabled true])
        else (ACTION_ALERT, ([] : List RemoteCall))
      let q1 ←
        if cfg.notify.notifySlackOnSesReputation then do
          let msg ← build_ses_account_reputation_payload cfg.slackConfig
            THRESHOLD_WARNING metrics.warning (some eventUnixTs)
            (some actionAndCalls.1) eventUnixTs
          pure { q with slackMessages := q.slackMessages ++ [msg] }
        else pure q
      .ok (.pending q1.slackMessages q1.pdEvents, q1, .getMetricData :: actionAndCalls.2)
    else if metrics.ok ≠ [] then
      if cfg.sesManagementStrategy = SES_MONITOR_STRATEGY_MANAGED then
        if ¬env.sendingEnabled then do
          let q1 ←
            if cfg.notify.notifySlackOnSesReputation then do
              let msg ← build_ses_account_reputation_payload cfg.slackConfig
                THRESHOLD_WARNING metrics.warning (some eventUnixTs)
                (some ACTION_ENABLE) eventUnixTs
              pure { q with slackMessages := q.slackMessages ++ [msg] }
            else pure q
          .ok (.pending q1.slackMessages q1.pdEvents, q1,
               [.getMetricData, .isSendingEnabled, .setSendingEnabled true])
        else
          .ok (.pending q.slackMessages q.pdEvents, q,
               [.getMetricData, .isSendingEnabled])
      else
        .ok (.pending q.slackMessages q.pdEvents, q, [.getMetricData])
    else
      .ok (.pending q.slackMessages q.pdEvents, q, [.getMetricData])

/-- Projection of a handler result onto its remote-call trace. -/
def handler_trace (r : Except PyErr (HandleResult × MonitorQueues × List RemoteCall)) :
    Option (List RemoteCall) :=
  match r with
  | .ok x => some x.2.2
  | .error _ => none

/-- The two notification backends of the monitor. -/
inductive NotificationBackend
  | pagerDuty
  | slack
  deriving DecidableEq, Repr

/-- The data carried by the NotificationFailure exception: which backend,
which item identifier (event id or channel), and the offending status. -/
structure NotificationFailure where
  backend : NotificationBackend
  identifier : String
  status : Nat
  deriving DecidableEq, Repr

/-- The stored dry-run flag and (identifier, status) delivery outcomes of
one backend, as inspected by Monitor._handle_notification_responses. -/
structure BackendResponses where
  dryRun : Bool
  responses : List (String × Nat)
  deriving DecidableEq, Repr

/-- The response-review loop of Monitor._handle_notification_responses:
the first outcome whose status lies in the inclusive 400..500 range. -/
def review_backend_responses : List (String × Nat) → Option (String × Nat)
  | [] => none
  | r :: rest =>
    if 400 ≤ r.2 ∧ r.2 ≤ 500 then some r else review_backend_responses rest

/-- Monitor._handle_notification_responses: PagerDuty outcomes are reviewed
first, then Slack outcomes, each backend skipped entirely when its dry-run
flag is set; the first qualifying outcome becomes a NotificationFailure. -/
def handle_notification_responses (pd slack : BackendResponses) :
    Option NotificationFailure :=
  match (if pd.dryRun then none else review_backend_responses pd.responses) with
  | some r => some ⟨.pagerDuty, r.1, r.2⟩
  | none =>
    match (if slack.dryRun then none else review_backend_responses slack.responses) with
    | some r => some ⟨.slack, r.1, r.2⟩
    | none => none

/-- The error-raising tail of Monitor.send_notifications: after both sends,
when raise_on_errors is set the collected responses are reviewed and the
first qualifying failure is raised, else the responses are returned. -/
def monitor_send_notifications_check (raiseOnErrors : Bool)
    (pd slack : BackendResponses) :
    Except NotificationFailure (List (String × Nat) × List (String × Nat)) :=
  if raiseOnErrors then
    match handle_notification_responses pd slack with
    | some f => .error f
    | none => .ok (pd.responses, slack.responses)
  else .ok (pd.responses, slack.responses)

/-- Specification-side reformulation used by claim C7: the first qualifying
failure is List.find? over the eligible outcomes (a dry-run backend
excluded, PagerDuty outcomes before Slack outcomes) with the inclusive
400..500 status range. -/
def first_error_outcome_spec (pd slack : BackendResponses) :
    Option NotificationFailure :=
  (((if pd.dryRun then [] else pd.responses).map
      (fun r => NotificationFailure.mk .pagerDuty r.1 r.2)) ++
   ((if slack.dryRun then [] else slack.responses).map
      (fun r => NotificationFailure.mk .slack r.1 r.2))).find?
    (fun f => decide (400 ≤ f.status ∧ f.status ≤ 500))

/-- Binding a successful Except result reduces to the continuation. -/
@[simp] lemma except_ok_bind {ε α β : Type} (a : α) (f : α → Except ε β) :
    (Except.ok a : Except ε α) >>= f = f a := rfl

/-- Binding a failed Except result propagates the error. -/
@[simp] lemma except_error_bind {ε α β : Type} (e : ε) (f : α → Except ε β) :
    (Except.error e : Except ε α) >>= f = .error e := rfl

/-- The monadic pure of Except is the ok constructor. -/
@[simp] lemma except_pure_eq_ok {ε α : Type} (a : α) :
    (pure a : Except ε α) = .ok a := rfl

/-- Sample PagerDuty configuration used for concrete evaluations. -/
def samplePdConfig : PagerDutyServiceConfig :=
  { awsAccountName := "undefined"
    awsEnvironment := "undefined"
    awsRegion := "undefined"
    serviceName := "undefined-undefined-undefined-ses-account-monitor"
    sesConsoleUrl := "https://console.example/ses"
    routingKey := none }

/-- Sample Slack configuration used for concrete evaluations. -/
def sampleSlackConfig : SlackServiceConfig :=
  { awsAccountName := "undefined"
    awsEnvironment := "undefined"
    awsRegion := "undefined"
    footerIconUrl := "https://icon.example/icon.png"
    iconEmoji := none
    serviceName := "undefined-undefined-undefined-ses-account-monitor"
    sesConsoleUrl := "https://console.example/ses"
    sesReputationDashboardUrl := "https://console.example/ses" }

/-- Sample reputation thresholds used for concrete evaluations. -/
def sampleThresholds : SesThresholds :=
  { critical := fun _ => 8, warning := fun _ => 4 }

/-- Sample monitor configuration with every notify flag on, both monitors
on, and the default 80/90 quota thresholds. -/
def sampleMonitorConfig (strategy : String) : MonitorConfig :=
  { notify :=
      { notifyPagerDutyOnSesReputation := true
        notifyPagerDutyOnSesSendingQuota := true
        notifySlackOnSesReputation := true
        notifySlackOnSesSendingQuota := true }
    sesManagementStrategy := strategy
    monitorSesReputation := true
    monitorSesSendingQuota := true
    sesSendingQuotaWarningPercent := 80
    sesSendingQuotaCriticalPercent := 90
    sesThresholds := sampleThresholds
    pdConfig := samplePdConfig
    slackConfig := sampleSlackConfig }

/-- Sample environment holding only the send-quota counters. -/
def sampleQuotaEnv (volume maxVolume : ℚ) : MonitorEnv :=
  { sentLast24Hours := volume
    max24HourSend := maxVolume
    metricData := []
    sendingEnabled := true }

/-- Sample environment whose one bounce-rate sample breaches the critical
threshold while account sending is already disabled. -/
def sampleCriticalEnvDisabled : MonitorEnv :=
  { sentLast24Hours := 0
    max24HourSend := 1
    metricData := [⟨"bounce_rate", "Bounce Rate", [1], [10]⟩]
    sendingEnabled := false }

/-- C10: every send_notifications call leaves the service queue empty, in
dry-run as in live mode, and a live send issued right afterwards posts
nothing, so nothing queued before a dry-run call is ever transmitted by a
later live call. -/
theorem send_notifications_drains_queues
    (netP : PDEvent → Nat) (netS : SlackMessage → Nat)
    (pd : PagerDutyServiceState) (sl : SlackServiceState) (dP dS : Bool) :
    (pd_send_notifications netP pd dP).2.2.events = [] ∧
    (slack_send_notifications netS sl dS).2.2.messages = [] ∧
    (pd_send_notifications netP (pd_send_notifications netP pd dP).2.2 false).2.1 = [] ∧
    (slack_send_notifications netS (slack_send_notifications netS sl dS).2.2 false).2.1 = [] := by
  refine ⟨?_, ?_, ?_, ?_⟩ <;>
    simp only [pd_send_notifications, slack_send_notifications] <;>
    split_ifs <;> simp

/-- C6 (amended): whenever dry-run is in effect, through the explicit
argument or the configured default, no outbound call is made and the queue
is consumed: PagerDuty echoes each queued event paired with a debug
identifier, Slack returns the list of channel-injected messages (with no
sent flag at all); the PagerDuty sent flag however is the negation of the
explicit argument alone, so sent=false is reported only when the explicit
argument is set. -/
theorem dry_run_send_makes_no_calls
    (netP : PDEvent → Nat) (netS : SlackMessage → Nat)
    (pd : PagerDutyServiceState) (sl : SlackServiceState) (dP dS : Bool)
    (hP : dP = true ∨ pd.dryRun = true) (hS : dS = true ∨ sl.dryRun = true) :
    pd_send_notifications netP pd dP =
      ((!dP, pd.events.map (fun e => (pd_event_id true e, PDResponse.echo e))),
       [], { pd with events := [] }) ∧
    slack_send_notifications netS sl dS =
      (.dry (sl.messages.flatMap (build_message_with_channels sl.channels)),
       [], { sl with messages := [] }) := by
  constructor
  · simp only [pd_send_notifications]
    rcases hP with h | h <;> simp [h]
  · simp only [slack_send_notifications]
    rcases hS with h | h <;> simp [h]

/-- C6 witness: a concrete dry-run send with one queued event makes no
outbound call and echoes the event. -/
theorem dry_run_send_makes_no_calls_witness :
    ((true : Bool) = true ∨ (false : Bool) = true) ∧
    ((false : Bool) = true ∨ (true : Bool) = true) ∧
    (pd_send_notifications (fun _ => 200)
        ⟨false, [build_ses_account_sending_quota_resolve_event_payload samplePdConfig]⟩ true =
      ((false,
        [(pd_event_id true (build_ses_account_sending_quota_resolve_event_payload samplePdConfig),
          PDResponse.echo (build_ses_account_sending_quota_resolve_event_payload samplePdConfig))]),
       [], ⟨false, []⟩) ∧
     slack_send_notifications (fun _ => 200) ⟨true, ["#general"], []⟩ false =
      (.dry [], [], ⟨true, ["#general"], []⟩)) :=
  ⟨Or.inl rfl, Or.inr rfl,
   by
    have h := dry_run_send_makes_no_calls (fun _ => 200) (fun _ => 200)
      ⟨false, [build_ses_account_sending_quota_resolve_event_payload samplePdConfig]⟩
      ⟨true, ["#general"], []⟩ true false (Or.inl rfl) (Or.inr rfl)
    simpa using h⟩

/-- C6 (counterexample): with dry-run in effect only through the configured
default (instance flag true, explicit argument false), PagerDuty's dry-run
branch runs yet the result reports the sent flag as true, and Slack's
dry-run branch returns a bare response list with no sent flag constructor. -/
theorem configured_dry_run_reports_sent_true :
    (pd_send_notifications (fun _ => 200)
        ⟨true, [build_ses_account_sending_quota_resolve_event_payload samplePdConfig]⟩
        false).1.1 = true ∧
    (slack_send_notifications (fun _ => 200) ⟨true, ["#general"], []⟩ false).1 =
      SlackSendResult.dry [] := ⟨rfl, rfl⟩

/-- C8 (failing input): in a live Slack send with one queued message and one
configured channel, exactly one outbound call is made, but its posted body
is the original message, which carries no channel key; the channel-injected
payload the claim (and the dead local in the source) describe differs from
the posted body. -/
theorem slack_live_send_posts_message_without_channel :
    (slack_send_notifications (fun _ => 200)
        ⟨false, ["#general"], [⟨none, [], none, "SES Account Monitor"⟩]⟩ false).2.1 =
      [⟨none, [], none, "SES Account Monitor"⟩] ∧
    (⟨none, [], none, "SES Account Monitor"⟩ : SlackMessage).channel = none ∧
    injectChannel "#general" ⟨none, [], none, "SES Account Monitor"⟩ ≠
      (⟨none, [], none, "SES Account Monitor"⟩ : SlackMessage) := by
  refine ⟨rfl, rfl, ?_⟩
  decide

/-- C9 (counterexample): building a reputation trigger event with an empty
metrics list does not fail with any error; the event is built and lands on
the queue. -/
theorem reputation_trigger_empty_metrics_is_queued :
    (pd_enqueue_ses_account_reputation_trigger_event samplePdConfig
        ⟨false, []⟩ [] none none none "t" 0).events.length = 1 := rfl

/-- C9 (amended): for every configuration and service state, building a
reputation trigger event from an empty metrics list succeeds (the source has
no MissingRequiredField check) and the built trigger event is appended to
the event queue; its custom details are exactly the metric-independent base
details. -/
theorem reputation_trigger_empty_metrics_builds_and_queues
    (cfg : PagerDutyServiceConfig) (s : PagerDutyServiceState)
    (eventIsoTs : Option String) (eventUnixTs : Option Nat)
    (action : Option String) (nowIso : String) (nowUnix : Nat) :
    pd_enqueue_ses_account_reputation_trigger_event cfg s [] eventIsoTs
        eventUnixTs action nowIso nowUnix =
      { s with events := s.events ++
          [build_ses_account_reputation_trigger_event_payload cfg []
            eventIsoTs eventUnixTs action nowIso nowUnix] } ∧
    (build_ses_account_reputation_trigger_event_payload cfg []
        eventIsoTs eventUnixTs action nowIso nowUnix).payload =
      some { summary := "SES account reputation is at dangerous levels."
             timestamp := eventIsoTs.getD nowIso
             source := cfg.serviceName
             severity := "critical"
             component := "ses"
             group := get_group cfg
             classType := SES_ACCOUNT_REPUTATION_CLASS_TYPE
             customDetails :=
               build_ses_reputation_custom_details cfg [] action eventUnixTs nowUnix } :=
  ⟨rfl, rfl⟩

/-- C1: when the management strategy is neither the managed nor the alert
value, or when the respective monitoring flag is off, both handlers return
the empty dict, leave both queues untouched and issue no remote call. -/
theorem invalid_strategy_or_disabled_flag_is_noop
    (cfg : MonitorConfig) (env : MonitorEnv) (q : MonitorQueues)
    (isoTs : String) (unixTs : Nat) :
    (cfg.sesManagementStrategy ≠ SES_MONITOR_STRATEGY_MANAGED ∧
     cfg.sesManagementStrategy ≠ SES_MONITOR_STRATEGY_ALERT →
      handle_ses_sending_quota cfg env q isoTs unixTs = .ok (.empty, q, []) ∧
      handle_ses_reputation cfg env q isoTs unixTs = .ok (.empty, q, [])) ∧
    (cfg.monitorSesSendingQuota = false →
      handle_ses_sending_quota cfg env q isoTs unixTs = .ok (.empty, q, [])) ∧
    (cfg.monitorSesReputation = false →
      handle_ses_reputation cfg env q isoTs unixTs = .ok (.empty, q, [])) := by
  refine ⟨fun h => ⟨?_, ?_⟩, fun h => ?_, fun h => ?_⟩
  · simp only [handle_ses_sending_quota, h.1, h.2]
    split_ifs <;> simp_all
  · simp only [handle_ses_reputation, h.1, h.2]
    split_ifs <;> simp_all
  · simp [handle_ses_sending_quota, h]
  · simp [handle_ses_reputation, h]

/-- C1 witness: with the strategy string bogus both handlers are no-ops on
a concrete state. -/
theorem invalid_strategy_is_noop_witness :
    ((sampleMonitorConfig "bogus").sesManagementStrategy ≠ SES_MONITOR_STRATEGY_MANAGED ∧
     (sampleMonitorConfig "bogus").sesManagementStrategy ≠ SES_MONITOR_STRATEGY_ALERT) ∧
    handle_ses_sending_quota (sampleMonitorConfig "bogus") (sampleQuotaEnv 9 10)
        ⟨[], []⟩ "t" 0 = .ok (.empty, ⟨[], []⟩, []) ∧
    handle_ses_reputation (sampleMonitorConfig "bogus") (sampleQuotaEnv 9 10)
        ⟨[], []⟩ "t" 0 = .ok (.empty, ⟨[], []⟩, []) :=
  ⟨⟨by decide, by decide⟩,
   (invalid_strategy_or_disabled_flag_is_noop (sampleMonitorConfig "bogus")
      (sampleQuotaEnv 9 10) ⟨[], []⟩ "t" 0).1 ⟨by decide, by decide⟩⟩

/-- C2: with the quota monitor on and a valid strategy, the handler computes
utilization as volume divided by max volume times one hundred and
classifies it with inclusive boundaries, critical first: at or above the
critical percent a trigger event and a CRITICAL message are enqueued, else
at or above the warning percent a resolve event and a WARNING message, else
a resolve event only; utilization above one hundred follows the same rule. -/
theorem quota_classification_inclusive_boundaries
    (cfg : MonitorConfig) (env : MonitorEnv) (q : MonitorQueues)
    (isoTs : String) (unixTs : Nat)
    (hmon : cfg.monitorSesSendingQuota = true)
    (hstrat : cfg.sesManagementStrategy = SES_MONITOR_STRATEGY_MANAGED ∨
              cfg.sesManagementStrategy = SES_MONITOR_STRATEGY_ALERT)
    (hpd : cfg.notify.notifyPagerDutyOnSesSendingQuota = true)
    (hslack : cfg.notify.notifySlackOnSesSendingQuota = true)
    (hmax : 0 < env.max24HourSend) :
    handle_ses_sending_quota cfg env q isoTs unixTs =
      (let u := env.sentLast24Hours / env.max24HourSend * 100
       let q1 : MonitorQueues :=
         if u ≥ cfg.sesSendingQuotaCriticalPercent then
           { pdEvents := q.pdEvents ++
               [build_ses_account_sending_quota_trigger_event_payload cfg.pdConfig
                 env.sentLast24Hours env.max24HourSend u
                 cfg.sesSendingQuotaCriticalPercent (some isoTs) (some isoTs) isoTs unixTs]
             slackMessages := q.slackMessages ++
               [build_ses_account_sending_quota_payload cfg.slackConfig
                 THRESHOLD_CRITICAL u cfg.sesSendingQuotaCriticalPercent
                 env.sentLast24Hours env.max24HourSend (some isoTs) (some unixTs) isoTs unixTs] }
         else if u ≥ cfg.sesSendingQuotaWarningPercent then
           { pdEvents := q.pdEvents ++
               [build_ses_account_sending_quota_resolve_event_payload cfg.pdConfig]
             slackMessages := q.slackMessages ++
               [build_ses_account_sending_quota_payload cfg.slackConfig
                 THRESHOLD_WARNING u cfg.sesSendingQuotaWarningPercent
                 env.sentLast24Hours env.max24HourSend (some isoTs) (some unixTs) isoTs unixTs] }
         else
           { pdEvents := q.pdEvents ++
               [build_ses_account_sending_quota_resolve_event_payload cfg.pdConfig]
             slackMessages := q.slackMessages }
       .ok (.pending q1.slackMessages q1.pdEvents, q1, [.getSendQuota])) := by
  have hne : env.max24HourSend ≠ 0 := ne_of_gt hmax
  rcases hstrat with h | h <;>
    simp only [handle_ses_sending_quota, h, hmon, hpd, hslack,
      get_utilization_percentage, hne, if_false, ite_false, ne_eq,
      not_true_eq_false, false_and, and_false, if_true, Bool.not_true,
      not_false_eq_true, and_true, except_ok_bind]

/-- C2 witness: volume 9 of max volume 10 with critical percent 90 sits
exactly on the boundary and classifies as CRITICAL. -/
theorem quota_classification_boundary_witness :
    (0 : ℚ) < (sampleQuotaEnv 9 10).max24HourSend ∧
    (9 : ℚ) / 10 * 100 = 90 ∧
    ((9 : ℚ) / 10 * 100 ≥ (sampleMonitorConfig "alert").sesSendingQuotaCriticalPercent) ∧
    handle_ses_sending_quota (sampleMonitorConfig "alert") (sampleQuotaEnv 9 10)
        ⟨[], []⟩ "t" 5 =
      (let u := (sampleQuotaEnv 9 10).sentLast24Hours /
          (sampleQuotaEnv 9 10).max24HourSend * 100
       let q1 : MonitorQueues :=
         if u ≥ (sampleMonitorConfig "alert").sesSendingQuotaCriticalPercent then
           { pdEvents :=
               [build_ses_account_sending_quota_trigger_event_payload
                 (sampleMonitorConfig "alert").pdConfig
                 (sampleQuotaEnv 9 10).sentLast24Hours
                 (sampleQuotaEnv 9 10).max24HourSend u
                 (sampleMonitorConfig "alert").sesSendingQuotaCriticalPercent
                 (some "t") (some "t") "t" 5]
             slackMessages :=
               [build_ses_account_sending_quota_payload
                 (sampleMonitorConfig "alert").slackConfig
                 THRESHOLD_CRITICAL u
                 (sampleMonitorConfig "alert").sesSendingQuotaCriticalPercent
                 (sampleQuotaEnv 9 10).sentLast24Hours
                 (sampleQuotaEnv 9 10).max24HourSend (some "t") (some 5) "t" 5] }
         else if u ≥ (sampleMonitorConfig "alert").sesSendingQuotaWarningPercent then
           { pdEvents :=
               [build_ses_account_sending_quota_resolve_event_payload
                 (sampleMonitorConfig "alert").pdConfig]
             slackMessages :=
               [build_ses_account_sending_quota_payload
                 (sampleMonitorConfig "alert").slackConfig
                 THRESHOLD_WARNING u
                 (sampleMonitorConfig "alert").sesSendingQuotaWarningPercent
                 (sampleQuotaEnv 9 10).sentLast24Hours
                 (sampleQuotaEnv 9 10).max24HourSend (some "t") (some 5) "t" 5] }
         else
           { pdEvents :=
               [build_ses_account_sending_quota_resolve_event_payload
                 (sampleMonitorConfig "alert").pdConfig]
             slackMessages := [] }
       .ok (.pending q1.slackMessages q1.pdEvents, q1, [.getSendQuota])) :=
  ⟨by norm_num [sampleQuotaEnv], by norm_num, by norm_num [sampleMonitorConfig],
   by
    have h := quota_classification_inclusive_boundaries (sampleMonitorConfig "alert")
      (sampleQuotaEnv 9 10) ⟨[], []⟩ "t" 5 rfl (Or.inr rfl) rfl rfl
      (by norm_num [sampleQuotaEnv])
    simpa using h⟩

/-- C3 (amended): with the quota monitor on and a valid strategy, a zero
max volume makes the quota handler fail with Python's ZeroDivisionError
(no InvalidQuotaConfiguration error exists in the source); it never
proceeds to a classification. -/
theorem quota_zero_max_volume_raises_zero_division
    (cfg : MonitorConfig) (env : MonitorEnv) (q : MonitorQueues)
    (isoTs : String) (unixTs : Nat)
    (hmon : cfg.monitorSesSendingQuota = true)
    (hstrat : cfg.sesManagementStrategy = SES_MONITOR_STRATEGY_MANAGED ∨
              cfg.sesManagementStrategy = SES_MONITOR_STRATEGY_ALERT)
    (hzero : env.max24HourSend = 0) :
    handle_ses_sending_quota cfg env q isoTs unixTs =
      .error PyErr.zeroDivisionError := by
  rcases hstrat with h | h <;>
    simp [handle_ses_sending_quota, h, hmon, get_utilization_percentage, hzero]

/-- C3 witness: a concrete zero max volume run fails with
ZeroDivisionError. -/
theorem quota_zero_max_volume_witness :
    (sampleQuotaEnv 15 0).max24HourSend = 0 ∧
    handle_ses_sending_quota (sampleMonitorConfig "alert") (sampleQuotaEnv 15 0)
        ⟨[], []⟩ "t" 0 = .error PyErr.zeroDivisionError :=
  ⟨rfl,
   quota_zero_max_volume_raises_zero_division (sampleMonitorConfig "alert")
     (sampleQuotaEnv 15 0) ⟨[], []⟩ "t" 0 rfl (Or.inr rfl) rfl⟩

/-- C3 (counterexample): at volume 15 and max volume 0 the quota handler
fails with ZeroDivisionError, which is not the InvalidQuotaConfiguration
error the claim names. -/
theorem quota_zero_max_volume_counterexample :
    handle_ses_sending_quota (sampleMonitorConfig "alert") (sampleQuotaEnv 15 0)
        ⟨[], []⟩ "t" 0 = .error PyErr.zeroDivisionError ∧
    PyErr.zeroDivisionError ≠ PyErr.invalidQuotaConfiguration := by
  refine ⟨?_, by decide⟩
  simp [handle_ses_sending_quota, sampleMonitorConfig, sampleQuotaEnv,
    get_utilization_percentage, SES_MONITOR_STRATEGY_ALERT]

/-- The Slack reputation builder always succeeds for the CRITICAL name. -/
lemma build_rep_payload_critical_ok (cfg : SlackServiceConfig)
    (metrics : List RepMetric) (ts : Option Nat) (a : Option String) (n : Nat) :
    ∃ m, build_ses_account_reputation_payload cfg THRESHOLD_CRITICAL metrics ts a n =
      .ok m := by
  simp only [build_ses_account_reputation_payload,
    show build_ses_reputation_text THRESHOLD_CRITICAL =
      .ok ("SES account reputation has breached CRITICAL threshold.",
           "SES account reputation has breached the CRITICAL threshold.") from by decide,
    except_ok_bind]
  exact ⟨_, rfl⟩

/-- The Slack reputation builder always succeeds for the WARNING name. -/
lemma build_rep_payload_warning_ok (cfg : SlackServiceConfig)
    (metrics : List RepMetric) (ts : Option Nat) (a : Option String) (n : Nat) :
    ∃ m, build_ses_account_reputation_payload cfg THRESHOLD_WARNING metrics ts a n =
      .ok m := by
  simp only [build_ses_account_reputation_payload,
    show build_ses_reputation_text THRESHOLD_WARNING =
      .ok ("SES account reputation has breached WARNING threshold.",
           "SES account reputation has breached the WARNING threshold.") from by decide,
    except_ok_bind]
  exact ⟨_, rfl⟩

/-- C4 (amended): under the managed strategy the enable mutator is issued
only after an is-sending-enabled read and only when sending is currently
disabled (WARNING and OK verdicts), but under a CRITICAL verdict the
orchestrator issues the disable mutator unconditionally, with no preceding
read: the disable is a blind write. -/
theorem reputation_managed_control_call_discipline
    (cfg : MonitorConfig) (env : MonitorEnv) (q : MonitorQueues)
    (isoTs : String) (unixTs : Nat) (ms : SesReputationMetrics)
    (hmon : cfg.monitorSesReputation = true)
    (hstrat : cfg.sesManagementStrategy = SES_MONITOR_STRATEGY_MANAGED)
    (hms : build_ses_account_reputation_metrics cfg.sesThresholds env.metricData = .ok ms) :
    handler_trace (handle_ses_reputation cfg env q isoTs unixTs) =
      some (.getMetricData ::
        (if ms.critical ≠ [] then [RemoteCall.setSendingEnabled false]
         else if ms.warning ≠ [] ∨ ms.ok ≠ [] then
           RemoteCall.isSendingEnabled ::
             (if env.sendingEnabled then [] else [RemoteCall.setSendingEnabled true])
         else [])) := by
  simp only [handle_ses_reputation, hmon, hstrat, hms, except_ok_bind, Bool.not_true,
    ne_eq, not_true_eq_false, false_and, if_false, ite_false, not_false_eq_true, if_true]
  by_cases hc : ms.critical = []
  · simp only [hc, not_true_eq_false, ite_false, if_false]
    by_cases hw : ms.warning = []
    · simp only [hw, not_true_eq_false, ite_false, if_false]
      by_cases ho : ms.ok = []
      · simp [ho, handler_trace]
      · simp only [ho, not_false_eq_true, ite_true, if_true]
        by_cases he : env.sendingEnabled
        · simp [he, handler_trace]
        · simp only [he, Bool.false_eq_true, not_false_eq_true, ite_true, if_true]
          obtain ⟨m, hm⟩ := build_rep_payload_warning_ok cfg.slackConfig []
            (some unixTs) (some ACTION_ENABLE) unixTs
          by_cases hns : cfg.notify.notifySlackOnSesReputation
          · simp [hns, hm, handler_trace, he]
          · simp [hns, handler_trace, he]
    · simp only [hw, not_false_eq_true, ite_true, if_true]
      obtain ⟨m, hm⟩ := build_rep_payload_warning_ok cfg.slackConfig ms.warning
        (some unixTs)
        (some (if env.sendingEnabled then ACTION_ALERT else ACTION_ENABLE)) unixTs
      by_cases he : env.sendingEnabled
      · by_cases hns : cfg.notify.notifySlackOnSesReputation
        · obtain ⟨m2, hm2⟩ := build_rep_payload_warning_ok cfg.slackConfig ms.warning
            (some unixTs) (some ACTION_ALERT) unixTs
          simp [hns, he, hm2, handler_trace]
        · simp [hns, he, handler_trace]
      · by_cases hns : cfg.notify.notifySlackOnSesReputation
        · obtain ⟨m2, hm2⟩ := build_rep_payload_warning_ok cfg.slackConfig ms.warning
            (some unixTs) (some ACTION_ENABLE) unixTs
          simp [hns, he, hm2, handler_trace]
        · simp [hns, he, handler_trace]
  · simp only [hc, not_false_eq_true, ite_true, if_true]
    obtain ⟨m, hm⟩ := build_rep_payload_critical_ok cfg.slackConfig
      (ms.critical ++ ms.warning) (some unixTs) (some ACTION_DISABLE) unixTs
    by_cases hns : cfg.notify.notifySlackOnSesReputation
    · by_cases hnp : cfg.notify.notifyPagerDutyOnSesReputation
      · simp [hns, hnp, hm, handler_trace]
      · simp [hns, hnp, hm, handler_trace]
    · simp [hns, handler_trace]

/-- Sample environment whose one bounce-rate sample breaches only the
warning threshold while account sending is enabled. -/
def sampleWarningEnvEnabled : MonitorEnv :=
  { sentLast24Hours := 0
    max24HourSend := 1
    metricData := [⟨"bounce_rate", "Bounce Rate", [1], [5]⟩]
    sendingEnabled := true }

/-- C4 witness: on a concrete WARNING verdict with sending enabled, the
managed strategy issues the read and no write. -/
theorem reputation_control_discipline_witness :
    build_ses_account_reputation_metrics (sampleMonitorConfig "managed").sesThresholds
        sampleWarningEnvEnabled.metricData =
      .ok ⟨[], [], [⟨"Bounce Rate", 5, 4, 1⟩]⟩ ∧
    handler_trace (handle_ses_reputation (sampleMonitorConfig "managed")
        sampleWarningEnvEnabled ⟨[], []⟩ "t" 0) =
      some [RemoteCall.getMetricData, RemoteCall.isSendingEnabled] :=
  ⟨by decide,
   by
    have h := reputation_managed_control_call_discipline (sampleMonitorConfig "managed")
      sampleWarningEnvEnabled ⟨[], []⟩ "t" 0 ⟨[], [], [⟨"Bounce Rate", 5, 4, 1⟩]⟩
      rfl rfl (by decide)
    simpa using h⟩

/-- C4 (counterexample): on a CRITICAL verdict under the managed strategy
with sending already disabled, the remote-call trace holds a disable write
with no is-sending-enabled read anywhere, so the mutator call is neither
preceded by a read nor issued only when it would change the state. -/
theorem reputation_blind_disable_counterexample :
    handler_trace (handle_ses_reputation (sampleMonitorConfig "managed")
        sampleCriticalEnvDisabled ⟨[], []⟩ "t" 0) =
      some [RemoteCall.getMetricData, RemoteCall.setSendingEnabled false] ∧
    sampleCriticalEnvDisabled.sendingEnabled = false ∧
    RemoteCall.isSendingEnabled ∉
      [RemoteCall.getMetricData, RemoteCall.setSendingEnabled false] := by
  refine ⟨?_, rfl, by decide⟩
  decide

/-- Folding max over a list either keeps the accumulator or lands on a
list element. -/
lemma foldl_max_mem (l : List Nat) (a : Nat) :
    l.foldl max a = a ∨ l.foldl max a ∈ l := by
  induction l generalizing a with
  | nil => exact Or.inl rfl
  | cons b t ih =>
    rw [List.foldl_cons]
    rcases ih (max a b) with h | h
    · rw [h]
      rcases max_choice a b with hm | hm
      · exact Or.inl hm
      · exact Or.inr (by rw [hm]; exact List.mem_cons_self b t)
    · exact Or.inr (List.mem_cons_of_mem b h)

/-- The Python max of a nonempty timestamp list is one of its elements. -/
lemma pyListMax_mem (l : List Nat) (h : l ≠ []) : pyListMax l ∈ l := by
  cases l with
  | nil => exact absurd rfl h
  | cons b t =>
    unfold pyListMax
    rw [List.foldl_cons, Nat.zero_max]
    rcases foldl_max_mem t b with h1 | h1
    · rw [h1]; exact List.mem_cons_self b t
    · exact List.mem_cons_of_mem b h1

/-- On a well-formed metric (as many values as timestamps) the classifying
fold never fails, and it grows the bucket sizes by exactly the number of
metrics with at least one sample. -/
lemma build_reputation_fold_count (th : SesThresholds) (data : List MetricDatum)
    (acc : SesReputationMetrics)
    (hwf : ∀ m ∈ data, m.values.length = m.timestamps.length) :
    ∃ r, data.foldlM (build_reputation_step th) acc = .ok r ∧
      r.critical.length + r.warning.length + r.ok.length =
        acc.critical.length + acc.warning.length + acc.ok.length +
          (data.filter (fun m => !m.timestamps.isEmpty)).length := by
  induction data generalizing acc with
  | nil => exact ⟨acc, rfl, by simp⟩
  | cons m rest ih =>
    have hm := hwf m (List.mem_cons_self m rest)
    have hrest : ∀ x ∈ rest, x.values.length = x.timestamps.length :=
      fun x hx => hwf x (List.mem_cons_of_mem m hx)
    by_cases hemp : m.timestamps = []
    · have hstep : build_reputation_step th acc m = .ok acc := by
        simp [build_reputation_step, get_last_metric, hemp]
      obtain ⟨r, hr, hc⟩ := ih acc hrest
      refine ⟨r, ?_, ?_⟩
      · rw [List.foldlM_cons, hstep, except_ok_bind]; exact hr
      · rw [hc, List.filter_cons]
        simp [hemp]
    · have hmem := pyListMax_mem m.timestamps hemp
      have hidx : m.timestamps.indexOf (pyListMax m.timestamps) < m.values.length := by
        rw [hm]; exact List.indexOf_lt_length.2 hmem
      have hget : m.values[m.timestamps.indexOf (pyListMax m.timestamps)]? =
          some (m.values[m.timestamps.indexOf (pyListMax m.timestamps)]) :=
        List.getElem?_eq_getElem hidx
      have hlast : get_last_metric m =
          .ok (some (m.label, m.values[m.timestamps.indexOf (pyListMax m.timestamps)],
            pyListMax m.timestamps)) := by
        unfold get_last_metric
        rw [if_neg hemp]
        simp only [hget]
      set v := m.values[m.timestamps.indexOf (pyListMax m.timestamps)] with hv
      by_cases h1 : v ≥ th.critical m.id
      · have hstep : build_reputation_step th acc m =
            .ok { acc with critical := acc.critical ++
              [⟨m.label, v, th.critical m.id, pyListMax m.timestamps⟩] } := by
          simp [build_reputation_step, hlast, h1]
        obtain ⟨r, hr, hc⟩ := ih _ hrest
        refine ⟨r, by rw [List.foldlM_cons, hstep, except_ok_bind]; exact hr, ?_⟩
        rw [hc, List.filter_cons]
        simp only [hemp, List.isEmpty_iff, Bool.not_eq_true]
        simp [hemp]
        omega
      · by_cases h2 : v ≥ th.warning m.id
        · have hstep : build_reputation_step th acc m =
              .ok { acc with warning := acc.warning ++
                [⟨m.label, v, th.warning m.id, pyListMax m.timestamps⟩] } := by
            simp [build_reputation_step, hlast, h1, h2]
          obtain ⟨r, hr, hc⟩ := ih _ hrest
          refine ⟨r, by rw [List.foldlM_cons, hstep, except_ok_bind]; exact hr, ?_⟩
          rw [hc, List.filter_cons]
          simp [hemp]
          omega
        · have hstep : build_reputation_step th acc m =
              .ok { acc with ok := acc.ok ++
                [⟨m.label, v, th.warning m.id, pyListMax m.timestamps⟩] } := by
            simp [build_reputation_step, hlast, h1, h2]
          obtain ⟨r, hr, hc⟩ := ih _ hrest
          refine ⟨r, by rw [List.foldlM_cons, hstep, except_ok_bind]; exact hr, ?_⟩
          rw [hc, List.filter_cons]
          simp [hemp]
          omega

/-- C5: on well-formed metric data the classifier never fails and
partitions the sampled metrics: the bucket sizes sum to the number of
metrics with at least one sample, each empty series contributing nothing. -/
theorem reputation_classification_partitions_sampled_metrics
    (th : SesThresholds) (data : List MetricDatum)
    (hwf : ∀ m ∈ data, m.values.length = m.timestamps.length) :
    ∃ r, build_ses_account_reputation_metrics th data = .ok r ∧
      r.critical.length + r.warning.length + r.ok.length =
        (data.filter (fun m => !m.timestamps.isEmpty)).length := by
  obtain ⟨r, hr, hc⟩ := build_reputation_fold_count th data ⟨[], [], []⟩ hwf
  exact ⟨r, hr, by simpa using hc⟩

/-- C5 witness: two sampled metrics and one empty series yield buckets whose
sizes sum to two. -/
theorem reputation_partition_witness :
    (∀ m ∈ ([⟨"bounce_rate", "Bounce Rate", [5, 3], [2, 9]⟩,
             ⟨"complaint_rate", "Complaint Rate", [], []⟩,
             ⟨"bounce_rate", "Bounce Rate", [7], [6]⟩] : List MetricDatum),
      m.values.length = m.timestamps.length) ∧
    (∃ r, build_ses_account_reputation_metrics sampleThresholds
        [⟨"bounce_rate", "Bounce Rate", [5, 3], [2, 9]⟩,
         ⟨"complaint_rate", "Complaint Rate", [], []⟩,
         ⟨"bounce_rate", "Bounce Rate", [7], [6]⟩] = .ok r ∧
      r.critical.length + r.warning.length + r.ok.length =
        (([⟨"bounce_rate", "Bounce Rate", [5, 3], [2, 9]⟩,
           ⟨"complaint_rate", "Complaint Rate", [], []⟩,
           ⟨"bounce_rate", "Bounce Rate", [7], [6]⟩] : List MetricDatum).filter
          (fun m => !m.timestamps.isEmpty)).length) :=
  ⟨by decide,
   reputation_classification_partitions_sampled_metrics sampleThresholds
     [⟨"bounce_rate", "Bounce Rate", [5, 3], [2, 9]⟩,
      ⟨"complaint_rate", "Complaint Rate", [], []⟩,
      ⟨"bounce_rate", "Bounce Rate", [7], [6]⟩] (by decide)⟩

/-- The review loop is the first-match search over the inclusive 400..500
status predicate. -/
lemma review_backend_responses_eq_find (rs : List (String × Nat)) :
    review_backend_responses rs =
      rs.find? (fun r => decide (400 ≤ r.2 ∧ r.2 ≤ 500)) := by
  induction rs with
  | nil => rfl
  | cons r rest ih =>
    by_cases h : 400 ≤ r.2 ∧ r.2 ≤ 500
    · simp only [review_backend_responses, if_pos h]
      exact (List.find?_cons_of_pos rest (by simpa using h)).symm
    · simp only [review_backend_responses, if_neg h]
      rw [List.find?_cons_of_neg rest (by simpa using h)]
      exact ih

/-- The source's two sequential review loops compute exactly the
specification-side first qualifying failure. -/
lemma handle_notification_responses_eq_spec (pd slack : BackendResponses) :
    handle_notification_responses pd slack = first_error_outcome_spec pd slack := by
  have hP : ((fun f : NotificationFailure => decide (400 ≤ f.status ∧ f.status ≤ 500)) ∘
      (fun r : String × Nat => NotificationFailure.mk .pagerDuty r.1 r.2)) =
      (fun r : String × Nat => decide (400 ≤ r.2 ∧ r.2 ≤ 500)) := rfl
  have hS : ((fun f : NotificationFailure => decide (400 ≤ f.status ∧ f.status ≤ 500)) ∘
      (fun r : String × Nat => NotificationFailure.mk .slack r.1 r.2)) =
      (fun r : String × Nat => decide (400 ≤ r.2 ∧ r.2 ≤ 500)) := rfl
  unfold handle_notification_responses first_error_outcome_spec
  rw [List.find?_append, List.find?_map, List.find?_map, hP, hS]
  by_cases hp : pd.dryRun <;> by_cases hs : slack.dryRun <;>
    simp only [hp, hs, if_true, if_false, ite_true, ite_false, List.find?_nil,
      Option.map_none, Option.none_or, ← review_backend_responses_eq_find] <;>
    rcases hrp : review_backend_responses pd.responses with _ | rp <;>
    rcases hrs : review_backend_responses slack.responses with _ | rs <;>
    simp [hrp, hrs, Option.or]

/-- C7: with raise_on_errors set, send_notifications fails with the
NotificationFailure naming the backend and item identifier of the first
delivery outcome whose status lies in the inclusive 400..500 range (the
eligible outcomes exclude any backend in dry-run mode, PagerDuty outcomes
ordered before Slack outcomes); concretely, status 500 qualifies, status
501 does not, and a dry-run backend is exempt from inspection. -/
theorem send_notifications_raises_first_error_in_range
    (pd slack : BackendResponses) :
    monitor_send_notifications_check true pd slack =
      (match first_error_outcome_spec pd slack with
       | some f => .error f
       | none => .ok (pd.responses, slack.responses)) ∧
    handle_notification_responses ⟨false, [("e1", 500)]⟩ ⟨false, []⟩ =
      some ⟨.pagerDuty, "e1", 500⟩ ∧
    handle_notification_responses ⟨false, [("e1", 501)]⟩ ⟨false, []⟩ = none ∧
    handle_notification_responses ⟨true, [("e1", 500)]⟩ ⟨false, [("#c", 404)]⟩ =
      some ⟨.slack, "#c", 404⟩ := by
  refine ⟨?_, by decide, by decide, by decide⟩
  unfold monitor_send_notifications_check
  rw [if_pos rfl, handle_notification_responses_eq_spec]
